import Mathlib

/-!
Shallow embedding of the `ai_wingman` database layer
(`src/ai_wingman/database/{models,operations,connection}.py`).

The database state is a list of message rows and context rows; each
operation from `operations.py` becomes a pure function on that state.
SQLAlchemy's flush-time enforcement of the `unique=True` column
constraints declared in `models.py` is modelled inside the create
operations; the pgvector cosine-distance operator `<=>` is external to
the repository and is therefore a parameter `dist` of the search
operation.
-/

namespace AIWingman

/-- A Python scalar value as it can appear in the `query_embedding` list
passed to `search_similar_messages`.  A float carries a `finite` flag
(false models `nan` / `inf`) and a rational magnitude. -/
inductive PyVal where
  | pyBool (b : Bool)
  | pyInt (n : Int)
  | pyFloat (finite : Bool) (val : ℚ)
  | pyStr (s : String)
  | pyNone
deriving DecidableEq, Repr

/-- Embeds the check on line 199 of `operations.py`:
`isinstance(x, (int, float)) and not isinstance(x, bool)`. -/
def isNumericValue : PyVal → Bool
  | .pyInt _ => true
  | .pyFloat _ _ => true
  | _ => false

/-- Spec-side predicate (from the spec's words "every element must be a
finite number"): an element is a finite number.  Used only to compare the
spec's claim with the validation the code actually performs. -/
def isFiniteNumber : PyVal → Bool
  | .pyInt _ => true
  | .pyFloat f _ => f
  | _ => false

/-- Numeric value of a validated embedding element (what PostgreSQL parses
back out of the interpolated vector literal). -/
def PyVal.toRat : PyVal → ℚ
  | .pyInt n => (n : ℚ)
  | .pyFloat _ v => v
  | _ => 0

/-- Row of `ai_wingman.slack_messages` (`models.py`, class `SlackMessage`).
The UUID primary key is modelled as a `Nat`; timestamps as `Nat`;
the JSONB metadata bag as a string association list. -/
structure SlackMessage where
  id : Nat
  slack_message_id : String
  channel_id : String
  channel_name : Option String
  user_id : String
  user_name : Option String
  message_text : String
  message_type : String
  embedding : Option (List ℚ)
  slack_timestamp : ℚ
  created_at : Option Nat
  updated_at : Option Nat
  metadata_ : List (String × String)
  is_deleted : Bool
deriving DecidableEq, Repr

/-- Row of `ai_wingman.user_contexts` (`models.py`, class `UserContext`). -/
structure UserContext where
  id : Nat
  user_id : String
  user_name : Option String
  total_messages : Int
  first_message_at : Option Nat
  last_message_at : Option Nat
  communication_style : Option String
  topics_of_interest : List String
deriving DecidableEq, Repr

/-- Database state: the two tables the claims touch, plus a fresh-id
counter modelling UUID generation. -/
structure DBState where
  messages : List SlackMessage
  contexts : List UserContext
  nextId : Nat
deriving DecidableEq, Repr

/-- Faults surfaced by the layer: `ValueError` from embedding validation
(InvalidArgument) and flush-time unique-constraint violations
(UniquenessViolation). -/
inductive DBError where
  | invalidArgument (msg : String)
  | uniquenessViolation (constraint : String)
deriving DecidableEq, Repr

/-- `create_slack_message` (`operations.py` lines 23-72): builds the row
and flushes it.  The flush enforces the `unique=True` constraint on
`slack_message_id` declared in `models.py` lines 54-59. -/
def create_slack_message (s : DBState) (smid cid uid txt : String)
    (ts : ℚ) (cname uname : Option String) (mtype : String)
    (emb : Option (List ℚ)) (meta : List (String × String)) :
    Except DBError (SlackMessage × DBState) :=
  if s.messages.any (fun m => m.slack_message_id = smid) then
    .error (.uniquenessViolation "slack_messages.slack_message_id")
  else
    let m : SlackMessage :=
      { id := s.nextId, slack_message_id := smid, channel_id := cid,
        channel_name := cname, user_id := uid, user_name := uname,
        message_text := txt, message_type := mtype, embedding := emb,
        slack_timestamp := ts, created_at := none, updated_at := none,
        metadata_ := meta, is_deleted := false }
    .ok (m, { s with messages := s.messages ++ [m], nextId := s.nextId + 1 })

/-- `get_slack_message_by_id` (`operations.py` lines 75-91): select by the
internal primary key. -/
def get_slack_message_by_id (s : DBState) (mid : Nat) : Option SlackMessage :=
  s.messages.find? (fun m => m.id = mid)

/-- `soft_delete_message` (`operations.py` lines 306-333): UPDATE the
matching row setting `is_deleted`, return whether a row matched. -/
def soft_delete_message (s : DBState) (mid : Nat) : Bool × DBState :=
  if s.messages.any (fun m => m.id = mid) then
    (true,
     { s with messages :=
        s.messages.map (fun m =>
          if m.id = mid then { m with is_deleted := true } else m) })
  else (false, s)

/-- The rows selected by `get_message_count` (`operations.py` lines
336-364).  The user/channel filters are attached under Python truthiness
(`if user_id:`), so `none` and `some ""` both mean "no filter". -/
def countedMessages (s : DBState) (uid cid : Option String)
    (include_deleted : Bool) : List SlackMessage :=
  s.messages.filter (fun m =>
    (match uid with
     | none => true
     | some u => if u = "" then true else decide (m.user_id = u)) &&
    (match cid with
     | none => true
     | some c => if c = "" then true else decide (m.channel_id = c)) &&
    (if include_deleted then true else !m.is_deleted))

/-- `get_message_count`: SQL COUNT over the filtered rows. -/
def get_message_count (s : DBState) (uid cid : Option String)
    (include_deleted : Bool) : Nat :=
  (countedMessages s uid cid include_deleted).length

/-- Rows kept by the WHERE clause of the similarity query built in
`search_similar_messages` (`operations.py` lines 205-230), paired with
their cosine distance to the query vector.  `dist` is the pgvector
cosine-distance operator `<=>`, external to the repository. -/
def searchRows (s : DBState) (dist : List ℚ → List ℚ → ℚ) (q : List ℚ)
    (th : ℚ) (uid cid : Option String) : List (SlackMessage × ℚ) :=
  s.messages.filterMap (fun m =>
    match m.embedding with
    | none => none
    | some e =>
        if (!m.is_deleted
            && decide (th ≤ 1 - dist e q)
            && (match uid with
                | none => true
                | some u => decide (m.user_id = u))
            && (match cid with
                | none => true
                | some c => decide (m.channel_id = c)))
        then some (m, dist e q) else none)

/-- `search_similar_messages` (`operations.py` lines 171-271).
Validation happens before the query string is built; the query keeps
non-deleted rows with an embedding whose similarity `1 - dist` reaches
the threshold, applies the user/channel filters when the argument is not
`none` (even when it is the empty string), orders by ascending distance
and truncates to `limit`. -/
def search_similar_messages (s : DBState) (dist : List ℚ → List ℚ → ℚ)
    (query_embedding : List PyVal) (similarity_threshold : ℚ) (limit : Nat)
    (user_id channel_id : Option String) :
    Except DBError (List (SlackMessage × ℚ)) :=
  if query_embedding.isEmpty then
    .error (.invalidArgument "query_embedding cannot be empty")
  else if !(query_embedding.all isNumericValue) then
    .error (.invalidArgument "Embedding must contain only numeric values")
  else
    .ok (((((searchRows s dist (query_embedding.map PyVal.toRat)
        similarity_threshold user_id channel_id).mergeSort
          (fun a b => decide (a.2 ≤ b.2))).take limit)).map
      (fun p => (p.1, 1 - p.2)))

/-- `get_user_context` (`operations.py` lines 400-416). -/
def get_user_context (s : DBState) (uid : String) : Option UserContext :=
  s.contexts.find? (fun c => c.user_id = uid)

/-- `create_user_context` (`operations.py` lines 372-397); the flush
enforces the `unique=True` constraint on `user_id` from `models.py`. -/
def create_user_context (s : DBState) (uid : String) (uname : Option String) :
    Except DBError (UserContext × DBState) :=
  if s.contexts.any (fun c => c.user_id = uid) then
    .error (.uniquenessViolation "user_contexts.user_id")
  else
    let c : UserContext :=
      { id := s.nextId, user_id := uid, user_name := uname,
        total_messages := 0, first_message_at := none,
        last_message_at := none, communication_style := none,
        topics_of_interest := [] }
    .ok (c, { s with contexts := s.contexts ++ [c], nextId := s.nextId + 1 })

/-- `get_or_create_user_context` (`operations.py` lines 419-440). -/
def get_or_create_user_context (s : DBState) (uid : String)
    (uname : Option String) : Except DBError (UserContext × DBState) :=
  match get_user_context s uid with
  | some c => .ok (c, s)
  | none => create_user_context s uid uname

/-- `update_user_context_stats` (`operations.py` lines 443-474).
`now` models `datetime.now(timezone.utc)` at the time of the call.  The
ORM mutation of the fetched object is written back as a replacement of
the row with that user id (unique by constraint). -/
def update_user_context_stats (s : DBState) (uid : String) (inc : Int)
    (now : Nat) : Option UserContext × DBState :=
  match get_user_context s uid with
  | none => (none, s)
  | some c =>
      let c' : UserContext :=
        { c with total_messages := c.total_messages + inc,
                 last_message_at := some now,
                 first_message_at :=
                   match c.first_message_at with
                   | none => some now
                   | some t => some t }
      (some c',
       { s with contexts :=
          s.contexts.map (fun d => if d.user_id = uid then c' else d) })

/-- State of a scoped session (`connection.py`, `DatabaseManager.get_session`):
the durable store, the session's pending view of it, and whether the
session has been closed. -/
structure SessionScope (σ : Type) where
  committed : σ
  pending : σ
  closed : Bool
deriving Repr

/-- `DatabaseManager.get_session` (`connection.py` lines 77-95): run the
scope body on the session; commit the pending state on normal completion,
roll back (keep the initial committed state) and re-raise on a fault, and
close the session on every exit path. -/
def get_session {σ α ε : Type} (init : σ) (body : σ → Except ε (α × σ)) :
    Except ε α × SessionScope σ :=
  match body init with
  | .ok (a, s) => (.ok a, { committed := s, pending := s, closed := true })
  | .error e => (.error e, { committed := init, pending := init, closed := true })

/-- `DatabaseManager.health_check` (`connection.py` lines 97-112): run the
trivial probe inside a scoped session; any fault is caught and converted
into `false`. -/
def health_check {σ ε : Type} (init : σ) (probe : σ → Except ε (Unit × σ)) :
    Bool :=
  match (get_session init probe).1 with
  | .ok _ => true
  | .error _ => false

/-- Values of the serialized dictionary produced by
`SlackMessage.to_dict` (`models.py` lines 109-126). -/
inductive DVal where
  | vStr (s : String)
  | vNum (q : ℚ)
  | vBool (b : Bool)
  | vObj (m : List (String × String))
  | vNone
deriving DecidableEq, Repr

/-- Serialization of an optional string attribute (Python `None` → JSON null). -/
def optStrVal : Option String → DVal
  | none => DVal.vNone
  | some s => DVal.vStr s

/-- Model of `datetime.isoformat()`: an injective textual rendering of the
timestamp. -/
def isoformat (t : Nat) : String := toString t

/-- `SlackMessage.to_dict` (`models.py` lines 109-126): the stable external
serialization.  The raw embedding is omitted; a boolean `has_embedding`
flag is emitted instead. -/
def SlackMessage.to_dict (m : SlackMessage) : List (String × DVal) :=
  [("id", .vStr (toString m.id)),
   ("slack_message_id", .vStr m.slack_message_id),
   ("channel_id", .vStr m.channel_id),
   ("channel_name", optStrVal m.channel_name),
   ("user_id", .vStr m.user_id),
   ("user_name", optStrVal m.user_name),
   ("message_text", .vStr m.message_text),
   ("message_type", .vStr m.message_type),
   ("slack_timestamp", .vNum m.slack_timestamp),
   ("created_at",
     match m.created_at with
     | none => .vNone
     | some t => .vStr (isoformat t)),
   ("updated_at",
     match m.updated_at with
     | none => .vNone
     | some t => .vStr (isoformat t)),
   ("metadata", .vObj m.metadata_),
   ("is_deleted", .vBool m.is_deleted),
   ("has_embedding", .vBool m.embedding.isSome)]

/-- Decode a required string entry of a serialized dictionary. -/
def decodeStr (v : Option DVal) : String :=
  match v with
  | some (DVal.vStr s) => s
  | _ => ""

/-- Decode an optional string entry of a serialized dictionary. -/
def decodeOptStr (v : Option DVal) : Option String :=
  match v with
  | some (DVal.vStr s) => some s
  | _ => none

/-- Decode a numeric entry of a serialized dictionary. -/
def decodeNum (v : Option DVal) : ℚ :=
  match v with
  | some (DVal.vNum q) => q
  | _ => 0

/-- Decode the metadata entry of a serialized dictionary. -/
def decodeObj (v : Option DVal) : List (String × String) :=
  match v with
  | some (DVal.vObj o) => o
  | _ => []

/-- Re-hydrate a `SlackMessage` from the serialized channel / user / text /
type / timestamp / metadata values of a dictionary (the embedding is
excluded from the round trip by design, and identity / audit fields take
their defaults). -/
def rehydrate (d : List (String × DVal)) : SlackMessage :=
  { id := 0,
    slack_message_id := decodeStr (d.lookup "slack_message_id"),
    channel_id := decodeStr (d.lookup "channel_id"),
    channel_name := decodeOptStr (d.lookup "channel_name"),
    user_id := decodeStr (d.lookup "user_id"),
    user_name := decodeOptStr (d.lookup "user_name"),
    message_text := decodeStr (d.lookup "message_text"),
    message_type := decodeStr (d.lookup "message_type"),
    embedding := none,
    slack_timestamp := decodeNum (d.lookup "slack_timestamp"),
    created_at := none,
    updated_at := none,
    metadata_ := decodeObj (d.lookup "metadata"),
    is_deleted := false }

/-- The context row built by `create_user_context` before flush. -/
def freshContext (s : DBState) (uid : String) (un : Option String) :
    UserContext :=
  { id := s.nextId, user_id := uid, user_name := un,
    total_messages := 0, first_message_at := none,
    last_message_at := none, communication_style := none,
    topics_of_interest := [] }

/-- Value of the context row after one `update_user_context_stats` step. -/
def bumpStats (c : UserContext) (inc : Int) (now : Nat) : UserContext :=
  { c with
      total_messages := c.total_messages + inc,
      last_message_at := some now,
      first_message_at :=
        match c.first_message_at with
        | none => some now
        | some t => some t }

/-- Empty database, used to instantiate the theorems on concrete data. -/
def state0 : DBState := { messages := [], contexts := [], nextId := 0 }

/-- A concrete stored message with an embedding. -/
def msgA : SlackMessage :=
  { id := 0, slack_message_id := "e1", channel_id := "c1",
    channel_name := none, user_id := "u1", user_name := none,
    message_text := "hello", message_type := "message",
    embedding := some [1, 0], slack_timestamp := 1, created_at := none,
    updated_at := none, metadata_ := [], is_deleted := false }

/-- Database holding just `msgA`. -/
def stateA : DBState := { messages := [msgA], contexts := [], nextId := 1 }

/-- A stored message whose author identifier is the empty string. -/
def msgEmptyUser : SlackMessage :=
  { msgA with id := 1, slack_message_id := "e2", user_id := "" }

/-- Database holding just `msgEmptyUser`. -/
def stateE : DBState :=
  { messages := [msgEmptyUser], contexts := [], nextId := 2 }

/-- A concrete fresh user context. -/
def ctxA : UserContext := freshContext state0 "u1" none

/-- Database holding just `ctxA`. -/
def stateC : DBState := { messages := [], contexts := [ctxA], nextId := 1 }

/-- C1 (amended): `search_similar_messages` raises an InvalidArgument
fault (ValueError) before any query exactly when the query embedding is
empty or contains a non-numeric element (booleans count as non-numeric);
a non-empty all-numeric embedding always passes validation.  Finiteness
of float elements is not checked (see the counterexample). -/
theorem search_embedding_validation (s : DBState) (dist : List ℚ → List ℚ → ℚ)
    (qe : List PyVal) (th : ℚ) (lim : Nat) (uid cid : Option String) :
    ((qe = [] ∨ ∃ x ∈ qe, isNumericValue x = false) →
      ∃ msg, search_similar_messages s dist qe th lim uid cid =
        .error (.invalidArgument msg))
    ∧ ((qe ≠ [] ∧ ∀ x ∈ qe, isNumericValue x = true) →
      (search_similar_messages s dist qe th lim uid cid).isOk = true) := by
  constructor
  · rintro (rfl | ⟨x, hx, hnum⟩)
    · exact ⟨"query_embedding cannot be empty", rfl⟩
    · refine ⟨"Embedding must contain only numeric values", ?_⟩
      have h1 : qe.isEmpty = false := by
        cases qe with
        | nil => cases hx
        | cons a l => rfl
      have h2 : qe.all isNumericValue = false := by
        rw [List.all_eq_false]
        exact ⟨x, hx, by simp [hnum]⟩
      simp [search_similar_messages, h1, h2]
  · rintro ⟨hne, hall⟩
    have h1 : qe.isEmpty = false := by
      cases qe with
      | nil => exact absurd rfl hne
      | cons a l => rfl
    have h2 : qe.all isNumericValue = true := List.all_eq_true.mpr hall
    simp [search_similar_messages, h1, h2, Except.isOk, Except.toBool]

/-- C1 counterexample: a query embedding holding a non-finite float (a
`nan` or `inf`, modelled as `PyVal.pyFloat false 0`) violates the
claim's "every element is a finite number" precondition, yet
`search_similar_messages` raises no fault and answers normally. -/
theorem search_validation_nonfinite_passes :
    isFiniteNumber (PyVal.pyFloat false 0) = false
    ∧ search_similar_messages
        { messages := [], contexts := [], nextId := 0 }
        (fun _ _ => 0) [PyVal.pyFloat false 0] (7/10) 5 none none = .ok [] := by
  constructor
  · rfl
  · simp [search_similar_messages, isNumericValue, searchRows]

/-- C4: the scoped session commits the pending state on normal
completion of the body, rolls back (keeps the initial state) and
re-raises the same fault when the body fails, and is closed on every
exit path. -/
theorem get_session_scope_spec (σ α ε : Type) (init : σ)
    (body : σ → Except ε (α × σ)) :
    ((get_session init body).2.closed = true)
    ∧ (∀ a s, body init = .ok (a, s) →
        (get_session init body).1 = .ok a ∧
          (get_session init body).2.committed = s)
    ∧ (∀ e, body init = .error e →
        (get_session init body).1 = .error e ∧
          (get_session init body).2.committed = init) := by
  unfold get_session
  refine ⟨?_, ?_, ?_⟩
  · cases h : body init with
    | ok p => obtain ⟨a, s⟩ := p; rfl
    | error e => rfl
  · intro a s h
    rw [h]
    exact ⟨rfl, rfl⟩
  · intro e h
    rw [h]
    exact ⟨rfl, rfl⟩

/-- Witness for C4 at a concrete body on `Nat` states. -/
theorem get_session_scope_witness :
    ((@get_session Nat Nat Nat 0 (fun n => .ok (n + 1, n + 5))).1 = .ok 1
      ∧ (@get_session Nat Nat Nat 0 (fun n => .ok (n + 1, n + 5))).2.committed = 5)
    ∧ ((@get_session Nat Nat Nat 0 (fun _ => .error 7)).1 = .error 7
      ∧ (@get_session Nat Nat Nat 0 (fun _ => .error 7)).2.committed = 0) :=
  ⟨(get_session_scope_spec Nat Nat Nat 0 (fun n => .ok (n + 1, n + 5))).2.1 1 5 rfl,
   (get_session_scope_spec Nat Nat Nat 0 (fun _ => .error 7)).2.2 7 rfl⟩

/-- C9: `health_check` always returns a boolean: `true` when the probe
round-trip succeeds, `false` when any fault occurs during the probe; the
fault is never propagated. -/
theorem health_check_spec (σ ε : Type) (init : σ)
    (probe : σ → Except ε (Unit × σ)) :
    (health_check init probe = true ∨ health_check init probe = false)
    ∧ (∀ s, probe init = .ok ((), s) → health_check init probe = true)
    ∧ (∀ e, probe init = .error e → health_check init probe = false) := by
  unfold health_check get_session
  refine ⟨?_, ?_, ?_⟩
  · cases h : probe init with
    | ok p => obtain ⟨a, s⟩ := p; exact Or.inl rfl
    | error e => exact Or.inr rfl
  · intro s h
    rw [h]
  · intro e h
    rw [h]

/-- Witness for C9 at a succeeding and at a failing probe. -/
theorem health_check_witness :
    @health_check Nat Nat 0 (fun s => .ok ((), s)) = true
    ∧ @health_check Nat Nat 0 (fun _ => .error 3) = false :=
  ⟨(health_check_spec Nat Nat 0 (fun s => .ok ((), s))).2.1 0 rfl,
   (health_check_spec Nat Nat 0 (fun _ => .error 3)).2.2 3 rfl⟩

/-- C8: `to_dict` omits the raw embedding, emits a `has_embedding` flag
that is true exactly when the embedding is non-null, and re-hydrating a
message from the serialized channel / user / text / type / timestamp /
metadata values restores those attributes. -/
theorem to_dict_round_trip (m : SlackMessage) :
    (m.to_dict).lookup "embedding" = none
    ∧ (m.to_dict).lookup "has_embedding" = some (.vBool m.embedding.isSome)
    ∧ (m.embedding.isSome = true ↔ m.embedding ≠ none)
    ∧ (rehydrate m.to_dict).channel_id = m.channel_id
    ∧ (rehydrate m.to_dict).channel_name = m.channel_name
    ∧ (rehydrate m.to_dict).user_id = m.user_id
    ∧ (rehydrate m.to_dict).user_name = m.user_name
    ∧ (rehydrate m.to_dict).message_text = m.message_text
    ∧ (rehydrate m.to_dict).message_type = m.message_type
    ∧ (rehydrate m.to_dict).slack_timestamp = m.slack_timestamp
    ∧ (rehydrate m.to_dict).metadata_ = m.metadata_ := by
  obtain ⟨i, smid, cid, cn, uid, un, txt, mt, emb, ts, ca, ua, meta, del⟩ := m
  cases cn <;> cases un <;>
    exact ⟨rfl, rfl, Option.isSome_iff_ne_none, rfl, rfl, rfl, rfl, rfl, rfl,
      rfl, rfl⟩

lemma get_message_count_all (s : DBState) :
    get_message_count s none none true = s.messages.length := by
  unfold get_message_count countedMessages
  simp

/-- C2: creating a message whose external id already exists fails with
a UniquenessViolation fault and yields no new state (so the total count
with includeDeleted true is unchanged), while a fresh external id
succeeds and increases that count by exactly one. -/
theorem create_message_uniqueness (s : DBState) (E cid uid txt : String)
    (ts : ℚ) (cn un : Option String) (mt : String) (emb : Option (List ℚ))
    (meta : List (String × String)) :
    ((∃ m ∈ s.messages, m.slack_message_id = E) →
      create_slack_message s E cid uid txt ts cn un mt emb meta =
        .error (.uniquenessViolation "slack_messages.slack_message_id"))
    ∧ ((∀ m ∈ s.messages, m.slack_message_id ≠ E) →
      (create_slack_message s E cid uid txt ts cn un mt emb meta).isOk = true
      ∧ ∀ msg s', create_slack_message s E cid uid txt ts cn un mt emb meta =
          .ok (msg, s') →
        get_message_count s' none none true =
          get_message_count s none none true + 1) := by
  constructor
  · rintro ⟨m, hm, hE⟩
    have h : s.messages.any (fun m => m.slack_message_id = E) = true :=
      List.any_eq_true.mpr ⟨m, hm, by simp [hE]⟩
    simp [create_slack_message, h]
  · intro hall
    have h : s.messages.any (fun m => m.slack_message_id = E) = false := by
      rw [List.any_eq_false]
      intro m hm
      simp [hall m hm]
    have hc : ¬((s.messages.any fun m => decide (m.slack_message_id = E)) = true) := by
      simp [h]
    constructor
    · unfold create_slack_message
      rw [if_neg hc]
      rfl
    · intro msg s' hok
      unfold create_slack_message at hok
      rw [if_neg hc] at hok
      simp only [Except.ok.injEq, Prod.mk.injEq] at hok
      obtain ⟨hmsg, hst⟩ := hok
      subst hst
      rw [get_message_count_all, get_message_count_all]
      simp

lemma find_after_mark (l : List SlackMessage) (mid : Nat)
    (h : ∃ m ∈ l, m.id = mid) :
    ∃ m', (l.map (fun m =>
        if m.id = mid then { m with is_deleted := true } else m)).find?
          (fun m => m.id = mid) = some m'
      ∧ m'.is_deleted = true
      ∧ m' ∈ l.map (fun m =>
          if m.id = mid then { m with is_deleted := true } else m) := by
  induction l with
  | nil =>
      obtain ⟨m, hm, _⟩ := h
      cases hm
  | cons a l ih =>
      by_cases ha : a.id = mid
      · refine ⟨{ a with is_deleted := true }, ?_, rfl, by simp [ha]⟩
        simp only [List.map_cons, if_pos ha]
        exact List.find?_cons_of_pos _ (by simp [ha])
      · obtain ⟨m, hm, hid⟩ := h
        cases hm with
        | head => exact absurd hid ha
        | tail _ hm' =>
            obtain ⟨m', h1, h2, h3⟩ := ih ⟨m, hm', hid⟩
            refine ⟨m', ?_, h2, by simp [h3]⟩
            simp only [List.map_cons, if_neg ha]
            rw [List.find?_cons_of_neg _ (by simp [ha])]
            exact h1

/-- C5: after a successful soft delete the row is still returned by
`get_slack_message_by_id` with its deletion flag set, it is excluded
from the rows counted with includeDeleted false and included in the rows
counted with includeDeleted true; when no row matches, the call returns
false and leaves the state unchanged. -/
theorem soft_delete_spec (s : DBState) (mid : Nat) :
    ((∃ m ∈ s.messages, m.id = mid) →
      (soft_delete_message s mid).1 = true
      ∧ ∃ m', get_slack_message_by_id (soft_delete_message s mid).2 mid = some m'
          ∧ m'.is_deleted = true
          ∧ m' ∉ countedMessages (soft_delete_message s mid).2 none none false
          ∧ m' ∈ countedMessages (soft_delete_message s mid).2 none none true)
    ∧ ((∀ m ∈ s.messages, m.id ≠ mid) →
      soft_delete_message s mid = (false, s)) := by
  constructor
  · intro h
    have hany : s.messages.any (fun m => m.id = mid) = true :=
      List.any_eq_true.mpr ⟨h.choose, h.choose_spec.1, by simp [h.choose_spec.2]⟩
    obtain ⟨m', h1, h2, h3⟩ := find_after_mark s.messages mid h
    refine ⟨by simp [soft_delete_message, hany], m', ?_, h2, ?_, ?_⟩
    · unfold get_slack_message_by_id
      simp only [soft_delete_message, hany, if_pos]
      exact h1
    · intro hmem
      rw [countedMessages] at hmem
      have := (List.mem_filter.mp hmem).2
      simp [h2] at this
    · rw [countedMessages]
      refine List.mem_filter.mpr ⟨?_, by simp⟩
      simp only [soft_delete_message, hany, if_pos]
      exact h3
  · intro hall
    have hany : s.messages.any (fun m => m.id = mid) = false := by
      rw [List.any_eq_false]
      intro m hm
      simp [hall m hm]
    simp [soft_delete_message, hany]

lemma find_replace_context (l : List UserContext) (uid : String)
    (c' : UserContext) (hc' : c'.user_id = uid) (c : UserContext)
    (h : l.find? (fun d => d.user_id = uid) = some c) :
    (l.map (fun d => if d.user_id = uid then c' else d)).find?
      (fun d => d.user_id = uid) = some c' := by
  induction l with
  | nil => cases h
  | cons a l ih =>
      by_cases ha : a.user_id = uid
      · simp only [List.map_cons, if_pos ha]
        exact List.find?_cons_of_pos _ (by simp [hc'])
      · rw [List.find?_cons_of_neg _ (by simp [ha])] at h
        simp only [List.map_cons, if_neg ha]
        rw [List.find?_cons_of_neg _ (by simp [ha])]
        exact ih h

lemma update_stats_found (s : DBState) (uid : String) (inc : Int)
    (now : Nat) (c : UserContext) (h : get_user_context s uid = some c) :
    update_user_context_stats s uid inc now =
      (some (bumpStats c inc now),
       { s with contexts := s.contexts.map (fun d =>
          if d.user_id = uid then bumpStats c inc now else d) }) := by
  unfold update_user_context_stats bumpStats
  rw [h]

lemma get_user_context_after_replace (s : DBState) (uid : String)
    (c c' : UserContext) (h : get_user_context s uid = some c)
    (hc' : c'.user_id = uid) :
    get_user_context
      { s with contexts :=
          s.contexts.map (fun d => if d.user_id = uid then c' else d) }
      uid = some c' := by
  unfold get_user_context at h ⊢
  exact find_replace_context s.contexts uid c' hc' c h

/-- C6: `update_user_context_stats` returns none and changes nothing
when no context exists; otherwise it adds the increment to the total,
sets the last-message time to now, and sets the first-message time only
if previously unset.  On a fresh context an increment of 5 gives total 5
and a set first-message time, and a subsequent increment of 3 gives
total 8 with the first-message time unchanged and the last-message time
advanced. -/
theorem update_stats_spec (s : DBState) (uid : String) (inc : Int)
    (now : Nat) :
    (get_user_context s uid = none →
      update_user_context_stats s uid inc now = (none, s))
    ∧ (∀ c, get_user_context s uid = some c →
      ∃ c' s', update_user_context_stats s uid inc now = (some c', s')
        ∧ c'.total_messages = c.total_messages + inc
        ∧ c'.last_message_at = some now
        ∧ (c.first_message_at = none → c'.first_message_at = some now)
        ∧ (∀ t, c.first_message_at = some t → c'.first_message_at = some t))
    ∧ (∀ c, get_user_context s uid = some c → c.total_messages = 0 →
      c.first_message_at = none → ∀ t1 t2 : Nat, t1 < t2 →
      ∃ c1 s1 c2 s2,
        update_user_context_stats s uid 5 t1 = (some c1, s1)
        ∧ update_user_context_stats s1 uid 3 t2 = (some c2, s2)
        ∧ c1.total_messages = 5 ∧ c1.first_message_at = some t1
        ∧ c1.last_message_at = some t1
        ∧ c2.total_messages = 8 ∧ c2.first_message_at = some t1
        ∧ c2.last_message_at = some t2) := by
  refine ⟨?_, ?_, ?_⟩
  · intro h
    unfold update_user_context_stats
    rw [h]
  · intro c h
    refine ⟨bumpStats c inc now, _, update_stats_found s uid inc now c h,
      rfl, rfl, ?_, ?_⟩
    · intro hf
      simp [bumpStats, hf]
    · intro t ht
      simp [bumpStats, ht]
  · intro c h htot hfirst t1 t2 _
    have hcuid : c.user_id = uid := by simpa using List.find?_some h
    have h1 := update_stats_found s uid 5 t1 c h
    have hget1 := get_user_context_after_replace s uid c (bumpStats c 5 t1) h
      (by exact hcuid)
    have h2 := update_stats_found _ uid 3 t2 _ hget1
    refine ⟨bumpStats c 5 t1, _, bumpStats (bumpStats c 5 t1) 3 t2, _,
      h1, h2, ?_, ?_, ?_, ?_, ?_, ?_⟩
    · simp [bumpStats, htot]
    · simp [bumpStats, hfirst]
    · rfl
    · simp [bumpStats, htot]
    · simp [bumpStats, hfirst]
    · rfl

/-- C7: under the unique-user-id invariant, `get_or_create_user_context`
creates the row at most once: the second call returns the same context
and state as the first, and exactly one context row with that user id
exists afterwards. -/
theorem get_or_create_idempotent (s : DBState) (uid : String)
    (un : Option String)
    (hinv : s.contexts.countP (fun c => c.user_id = uid) ≤ 1) :
    ∃ c1 s1, get_or_create_user_context s uid un = .ok (c1, s1)
      ∧ get_or_create_user_context s1 uid un = .ok (c1, s1)
      ∧ s1.contexts.countP (fun c => c.user_id = uid) = 1 := by
  cases h : get_user_context s uid with
  | some c =>
      refine ⟨c, s, ?_, ?_, ?_⟩
      · unfold get_or_create_user_context
        rw [h]
      · unfold get_or_create_user_context
        rw [h]
      · have hmem := List.mem_of_find?_eq_some h
        have hp := List.find?_some h
        have hpos : 0 < s.contexts.countP (fun c => c.user_id = uid) :=
          List.countP_pos_iff.mpr ⟨c, hmem, hp⟩
        omega
  | none =>
      have hnone : ∀ d ∈ s.contexts, ¬(decide (d.user_id = uid) = true) :=
        List.find?_eq_none.mp h
      have hzero : s.contexts.countP (fun c => c.user_id = uid) = 0 :=
        List.countP_eq_zero.mpr hnone
      have hc : ¬((s.contexts.any fun c => decide (c.user_id = uid)) = true) := by
        rw [List.any_eq_false.mpr hnone]
        exact Bool.false_ne_true
      refine ⟨freshContext s uid un,
        { s with contexts := s.contexts ++ [freshContext s uid un],
                 nextId := s.nextId + 1 }, ?_, ?_, ?_⟩
      · unfold get_or_create_user_context
        rw [h]
        unfold create_user_context
        rw [if_neg hc]
        rfl
      · have h' := h
        unfold get_user_context at h'
        have hfind :
            (s.contexts ++ [freshContext s uid un]).find?
              (fun c => c.user_id = uid) = some (freshContext s uid un) := by
          rw [List.find?_append, h']
          simp [List.find?, freshContext]
        unfold get_or_create_user_context get_user_context
        rw [show ({ s with
            contexts := s.contexts ++ [freshContext s uid un],
            nextId := s.nextId + 1 } : DBState).contexts =
          s.contexts ++ [freshContext s uid un] from rfl]
        rw [hfind]
      · rw [show ({ s with
            contexts := s.contexts ++ [freshContext s uid un],
            nextId := s.nextId + 1 } : DBState).contexts =
          s.contexts ++ [freshContext s uid un] from rfl]
        rw [List.countP_append, hzero]
        simp [freshContext]

lemma search_ok_eq (s : DBState) (dist : List ℚ → List ℚ → ℚ)
    (qe : List PyVal) (th : ℚ) (lim : Nat) (uid cid : Option String)
    (res : List (SlackMessage × ℚ))
    (hok : search_similar_messages s dist qe th lim uid cid = .ok res) :
    res = (((searchRows s dist (qe.map PyVal.toRat) th uid cid).mergeSort
        (fun a b => decide (a.2 ≤ b.2))).take lim).map
      (fun p => (p.1, 1 - p.2)) := by
  unfold search_similar_messages at hok
  by_cases h1 : qe.isEmpty
  · simp [h1] at hok
  · by_cases h2 : qe.all isNumericValue
    · rw [if_neg (by simp [h1]), if_neg (by simp [h2])] at hok
      exact (Except.ok.injEq _ _ ▸ hok).symm
    · rw [if_neg (by simp [h1]), if_pos (by simp [h2])] at hok
      cases hok

lemma mem_searchRows (s : DBState) (dist : List ℚ → List ℚ → ℚ)
    (q : List ℚ) (th : ℚ) (uid cid : Option String)
    (p : SlackMessage × ℚ) (hp : p ∈ searchRows s dist q th uid cid) :
    p.1 ∈ s.messages ∧ p.1.is_deleted = false
    ∧ ∃ e, p.1.embedding = some e ∧ p.2 = dist e q ∧ th ≤ 1 - dist e q
      ∧ (∀ u, uid = some u → p.1.user_id = u)
      ∧ (∀ c, cid = some c → p.1.channel_id = c) := by
  unfold searchRows at hp
  obtain ⟨m, hm, hf⟩ := List.mem_filterMap.mp hp
  cases he : m.embedding with
  | none =>
      simp only [he] at hf
      cases hf
  | some e =>
      simp only [he] at hf
      split at hf
      · next hcond =>
          injection hf with hf'
          subst hf'
          simp only [Bool.and_eq_true, Bool.not_eq_true',
            decide_eq_true_eq] at hcond
          obtain ⟨⟨⟨hdel, hth⟩, hu⟩, hc⟩ := hcond
          refine ⟨hm, hdel, e, he, rfl, hth, ?_, ?_⟩
          · intro u hu'
            subst hu'
            simpa using hu
          · intro c hc'
            subst hc'
            simpa using hc
      · cases hf

lemma search_ok_mem (s : DBState) (dist : List ℚ → List ℚ → ℚ)
    (qe : List PyVal) (th : ℚ) (lim : Nat) (uid cid : Option String)
    (res : List (SlackMessage × ℚ))
    (hok : search_similar_messages s dist qe th lim uid cid = .ok res)
    (p : SlackMessage × ℚ) (hp : p ∈ res) :
    p.1 ∈ s.messages ∧ p.1.is_deleted = false
    ∧ ∃ e, p.1.embedding = some e
      ∧ p.2 = 1 - dist e (qe.map PyVal.toRat)
      ∧ th ≤ p.2
      ∧ (∀ u, uid = some u → p.1.user_id = u)
      ∧ (∀ c, cid = some c → p.1.channel_id = c) := by
  rw [search_ok_eq s dist qe th lim uid cid res hok] at hp
  obtain ⟨r, hr, hpr⟩ := List.mem_map.mp hp
  have hr' : r ∈ (searchRows s dist (qe.map PyVal.toRat) th uid cid).mergeSort
      (fun a b => decide (a.2 ≤ b.2)) := List.mem_of_mem_take hr
  have hrows : r ∈ searchRows s dist (qe.map PyVal.toRat) th uid cid :=
    List.mem_mergeSort.mp hr'
  obtain ⟨hmem, hdel, e, he, hr2, hth, hu, hc⟩ :=
    mem_searchRows s dist (qe.map PyVal.toRat) th uid cid r hrows
  subst hpr
  exact ⟨hmem, hdel, e, he, by rw [hr2], by rw [hr2]; exact hth, hu, hc⟩

/-- C3: every returned pair has a non-deleted message with a stored
embedding whose similarity `1 - dist` is the score and reaches the
threshold, the optional user/channel equality filters hold, the scores
are non-increasing along the sequence, and the sequence has length at
most `limit`. -/
theorem search_results_spec (s : DBState) (dist : List ℚ → List ℚ → ℚ)
    (qe : List PyVal) (th : ℚ) (lim : Nat) (uid cid : Option String)
    (res : List (SlackMessage × ℚ))
    (hok : search_similar_messages s dist qe th lim uid cid = .ok res) :
    res.length ≤ lim
    ∧ List.Pairwise (fun a b => b.2 ≤ a.2) res
    ∧ ∀ p ∈ res, p.1 ∈ s.messages ∧ p.1.is_deleted = false
        ∧ ∃ e, p.1.embedding = some e
          ∧ p.2 = 1 - dist e (qe.map PyVal.toRat)
          ∧ th ≤ p.2
          ∧ (∀ u, uid = some u → p.1.user_id = u)
          ∧ (∀ c, cid = some c → p.1.channel_id = c) := by
  refine ⟨?_, ?_, fun p hp => search_ok_mem s dist qe th lim uid cid res hok p hp⟩
  · rw [search_ok_eq s dist qe th lim uid cid res hok]
    rw [List.length_map, List.length_take]
    exact min_le_left _ _
  · rw [search_ok_eq s dist qe th lim uid cid res hok]
    rw [List.pairwise_map]
    have hs := @List.sorted_mergeSort (SlackMessage × ℚ)
      (fun a b => decide (a.2 ≤ b.2))
      (fun a b c hab hbc => decide_eq_true_eq.mpr
        (le_trans (of_decide_eq_true hab) (of_decide_eq_true hbc)))
      (fun a b => (Bool.or_eq_true _ _).mpr
        ((le_total a.2 b.2).imp decide_eq_true_eq.mpr decide_eq_true_eq.mpr))
      (searchRows s dist (qe.map PyVal.toRat) th uid cid)
    have hs' := hs.sublist (List.take_sublist lim _)
    exact hs'.imp (fun hab => sub_le_sub_left (of_decide_eq_true hab) 1)

/-- C10: `get_message_count` attaches its user/channel filters under
Python truthiness, so an empty-string filter counts every row, while
`search_similar_messages` attaches its filters whenever the argument is
not `none`, so an empty-string filter keeps only rows whose key is the
empty string. -/
theorem truthiness_filter_contrast :
    (∀ s cid b, get_message_count s (some "") cid b =
      get_message_count s none cid b)
    ∧ (∀ s uid b, get_message_count s uid (some "") b =
      get_message_count s uid none b)
    ∧ (∀ s dist qe th lim cid res,
        search_similar_messages s dist qe th lim (some "") cid = .ok res →
        ∀ p ∈ res, p.1.user_id = "")
    ∧ (∀ s dist qe th lim uid res,
        search_similar_messages s dist qe th lim uid (some "") = .ok res →
        ∀ p ∈ res, p.1.channel_id = "") := by
  refine ⟨?_, ?_, ?_, ?_⟩
  · intro s cid b
    rfl
  · intro s uid b
    rfl
  · intro s dist qe th lim cid res hok p hp
    obtain ⟨-, -, e, -, -, -, hu, -⟩ :=
      search_ok_mem s dist qe th lim (some "") cid res hok p hp
    exact hu "" rfl
  · intro s dist qe th lim uid res hok p hp
    obtain ⟨-, -, e, -, -, -, -, hc⟩ :=
      search_ok_mem s dist qe th lim uid (some "") res hok p hp
    exact hc "" rfl

/-- Witness for C1's amended theorem at an empty and at a numeric
embedding. -/
theorem search_validation_witness :
    (∃ msg, search_similar_messages state0 (fun _ _ => 0) [] 0 5 none none =
      .error (.invalidArgument msg))
    ∧ (search_similar_messages state0 (fun _ _ => 0) [PyVal.pyInt 1] 0 5
        none none).isOk = true :=
  ⟨(search_embedding_validation state0 (fun _ _ => 0) [] 0 5 none none).1 (Or.inl rfl),
   (search_embedding_validation state0 (fun _ _ => 0) [PyVal.pyInt 1] 0 5 none none).2
     ⟨by decide, by decide⟩⟩

/-- Witness for C2 at a duplicated and at a fresh external id. -/
theorem create_message_uniqueness_witness :
    create_slack_message stateA "e1" "c2" "u2" "bye" 2 none none "message"
        none [] =
      .error (.uniquenessViolation "slack_messages.slack_message_id")
    ∧ (create_slack_message state0 "e1" "c1" "u1" "hi" 1 none none "message"
        none []).isOk = true :=
  ⟨(create_message_uniqueness stateA "e1" "c2" "u2" "bye" 2 none none
      "message" none []).1 ⟨msgA, by simp [stateA], rfl⟩,
   ((create_message_uniqueness state0 "e1" "c1" "u1" "hi" 1 none none
      "message" none []).2 (fun m hm => absurd hm (by simp [state0]))).1⟩

/-- Witness for C5 at an existing and at a missing internal id. -/
theorem soft_delete_spec_witness :
    (soft_delete_message stateA 0).1 = true
    ∧ soft_delete_message stateA 7 = (false, stateA) :=
  ⟨((soft_delete_spec stateA 0).1 ⟨msgA, by simp [stateA], rfl⟩).1,
   (soft_delete_spec stateA 7).2 (by decide)⟩

/-- Witness for C6: the 5-then-3 increment scenario on a fresh
context. -/
theorem update_stats_spec_witness :
    ∃ c1 s1 c2 s2,
      update_user_context_stats stateC "u1" 5 10 = (some c1, s1)
      ∧ update_user_context_stats s1 "u1" 3 20 = (some c2, s2)
      ∧ c1.total_messages = 5 ∧ c1.first_message_at = some 10
      ∧ c1.last_message_at = some 10
      ∧ c2.total_messages = 8 ∧ c2.first_message_at = some 10
      ∧ c2.last_message_at = some 20 :=
  (update_stats_spec stateC "u1" 5 10).2.2 ctxA rfl rfl rfl 10 20
    (by decide)

/-- Witness for C7 starting from the empty database. -/
theorem get_or_create_idempotent_witness :
    ∃ c1 s1, get_or_create_user_context state0 "u1" none = .ok (c1, s1)
      ∧ get_or_create_user_context s1 "u1" none = .ok (c1, s1)
      ∧ s1.contexts.countP (fun c => c.user_id = "u1") = 1 :=
  get_or_create_idempotent state0 "u1" none (by decide)

/-- Witness for C3 on a one-message database and a constant distance
function. -/
theorem search_results_spec_witness :
    ([((msgA : SlackMessage), (1 : ℚ))].length ≤ 5)
    ∧ List.Pairwise (fun a b => b.2 ≤ a.2)
        [((msgA : SlackMessage), (1 : ℚ))] := by
  have hok : search_similar_messages stateA (fun _ _ => 0) [PyVal.pyInt 1]
      (1/2) 5 none none = .ok [(msgA, 1)] := by
    norm_num [search_similar_messages, searchRows, stateA, msgA,
      isNumericValue, List.filterMap_cons, List.mergeSort_singleton]
  exact ⟨(search_results_spec stateA (fun _ _ => 0) [PyVal.pyInt 1] (1/2) 5
      none none [(msgA, 1)] hok).1,
    (search_results_spec stateA (fun _ _ => 0) [PyVal.pyInt 1] (1/2) 5
      none none [(msgA, 1)] hok).2.1⟩

/-- Witness for C10: an empty-string user filter is ignored by the
count but applied by the search. -/
theorem truthiness_filter_contrast_witness :
    get_message_count stateA (some "") none false =
      get_message_count stateA none none false
    ∧ ((msgEmptyUser, (1 : ℚ)) : SlackMessage × ℚ).1.user_id = "" := by
  have hok : search_similar_messages stateE (fun _ _ => 0) [PyVal.pyInt 1]
      0 5 (some "") none = .ok [(msgEmptyUser, 1)] := by
    norm_num [search_similar_messages, searchRows, stateE, msgEmptyUser,
      msgA, isNumericValue, List.filterMap_cons, List.mergeSort_singleton]
  exact ⟨truthiness_filter_contrast.1 stateA none false,
    truthiness_filter_contrast.2.2.1 stateE (fun _ _ => 0) [PyVal.pyInt 1]
      0 5 none [(msgEmptyUser, 1)] hok (msgEmptyUser, 1) (by simp)⟩

end AIWingman
